import Mathlib

/-!
Verification of the T-Keyboard-S3 controller firmware core: the finite state
machine driving the four displays, the SPIFFS image cache with its
download/eviction logic, and the WiFi reconnection backoff.  Every definition
below is a shallow embedding of the corresponding function in the firmware
sketch (`transitionToState`, `renderStateUI`, `processClaudeMessage`,
`handleKeyPress`, `sendKeyPress`, `loadImageFromSPIFFS`, `downloadImageHTTP`,
`ensureSPIFFSSpace`, `deleteRandomImage`, and the relevant branches of
`loop()`).  Hardware side effects (TFT drawing) are reified as `Draw` values;
outbound WebSocket messages as `OutMsg` values; SPIFFS as an association list
from full path to stored byte count; the HTTP stack and board peripherals as
an `Env` record of oracles.
-/

namespace TKeyboard

/-- `SCREEN_WIDTH * SCREEN_HEIGHT * 2` bytes: the fixed RGB565 image size
(128 * 128 * 2 = 32768). -/
def expectedSize : Nat := 128 * 128 * 2

/-- `IMAGE_CACHE_PATH` from the sketch. -/
def IMAGE_CACHE_PATH : String := "/images/"

/-- `SAFETY_MARGIN` inside `ensureSPIFFSSpace`. -/
def SAFETY_MARGIN : Nat := 4096

/-- Filename suffix selected by `deleteRandomImage`. -/
def rgbSuffix : String := ".rgb"

/-- Character-list prefix test (computable suffix check helper). -/
def charListPrefix : List Char → List Char → Bool
  | [], _ => true
  | _ :: _, [] => false
  | a :: as, b :: bs => if a = b then charListPrefix as bs else false

/-- `String.endsWith`, spelled out over the character data. -/
def strEndsWith (s suffix : String) : Bool :=
  charListPrefix suffix.data.reverse s.data.reverse

/-- The SPIFFS filesystem, as a map from full path to the byte length of the
stored file. -/
abbrev Cache := List (String × Nat)

/-- File lookup (`SPIFFS.exists` / `SPIFFS.open(.., FILE_READ)` + size). -/
def Cache.lookup : Cache → String → Option Nat
  | [], _ => none
  | (k, v) :: rest, key => if k = key then some v else Cache.lookup rest key

/-- `SPIFFS.remove`. -/
def Cache.remove : Cache → String → Cache
  | [], _ => []
  | (k, v) :: rest, key =>
      if k = key then Cache.remove rest key else (k, v) :: Cache.remove rest key

/-- Create or overwrite a file with `v` bytes (`SPIFFS.open(.., FILE_WRITE)`
followed by the writes that happened before close). -/
def Cache.set : Cache → String → Nat → Cache
  | [], key, v => [(key, v)]
  | (k, w) :: rest, key, v =>
      if k = key then (key, v) :: rest else (k, w) :: Cache.set rest key v

/-- One `stream->available()` poll during `downloadImageHTTP`'s receive loop:
how many bytes are ready and whether the subsequent `file.write` succeeds
in full. -/
structure Chunk where
  avail : Nat
  writeOk : Bool

/-- The observable behaviour of one `http.GET()`: the status-check outcome
(`httpCode == HTTP_CODE_OK`), the `Content-Length` header, and the data
deliveries seen while `http.connected()` holds. -/
structure HttpResp where
  okCode : Bool
  contentLength : Int
  chunks : List Chunk

/-- External-world oracles: `millis()`, the stored bridge preferences, the
HTTP stack, SPIFFS open/malloc success, `random()`, and the SPIFFS
geometry (`SPIFFS.totalBytes()` and the bytes used by non-image data). -/
structure Env where
  now : Nat
  bridgeHost : String
  bridgePort : Nat
  http : String → HttpResp
  openOk : Bool
  allocOk : Bool
  rand : Nat
  spiffsTotal : Nat
  otherUsed : Nat

/-- `SPIFFS.usedBytes()`: non-image data plus every cached file's length. -/
def usedBytes (env : Env) (cache : Cache) : Nat :=
  env.otherUsed + (cache.map Prod.snd).sum

/-- `deleteRandomImage`: collect the `.rgb` files, pick one uniformly at
random (the random draw is the `rand` oracle reduced mod the count) and
remove it. -/
def deleteRandomImage (rand : Nat) (cache : Cache) : Cache :=
  let imgs := cache.filter (fun e => strEndsWith e.1 rgbSuffix)
  if imgs.isEmpty then cache
  else Cache.remove cache (imgs.getD (rand % imgs.length) ("", 0)).1

/-- The `while (freeBytes < requiredBytes + SAFETY_MARGIN)` loop of
`ensureSPIFFSSpace`, fuelled for termination.  The inner conditional is the
sketch's literal "safety check to prevent infinite loop":
`if (freeBytes == (totalBytes - usedBytes)) break;` — evaluated right after
`freeBytes = totalBytes - usedBytes;`, so it compares a value with itself. -/
def ensureLoop (env : Env) (required : Nat) : Nat → Cache → Cache
  | 0, cache => cache
  | fuel + 1, cache =>
      let freeBytes := env.spiffsTotal - usedBytes env cache
      if freeBytes < required + SAFETY_MARGIN then
        let cache' := deleteRandomImage env.rand cache
        let usedBytes' := usedBytes env cache'
        let freeBytes' := env.spiffsTotal - usedBytes'
        if freeBytes' = env.spiffsTotal - usedBytes' then cache'
        else ensureLoop env required fuel cache'
      else cache

/-- `ensureSPIFFSSpace(requiredBytes)`. -/
def ensureSPIFFSSpace (env : Env) (cache : Cache) (required : Nat) : Cache :=
  ensureLoop env required (cache.length + 1) cache

/-- The byte-receiving loop of `downloadImageHTTP`:
`while (http.connected() && bytesWritten < expectedSize && !writeError)`;
each pass reads `min(availableBytes, sizeof(buffer))` (buffer is 128 bytes)
and writes it to the file.  Returns the bytes written and the
`writeError` flag. -/
def streamLoop : List Chunk → Nat → Nat × Bool
  | [], bytesWritten => (bytesWritten, false)
  | ch :: rest, bytesWritten =>
      if bytesWritten < expectedSize then
        if 0 < ch.avail then
          if ch.writeOk then streamLoop rest (bytesWritten + min ch.avail 128)
          else (bytesWritten, true)
        else streamLoop rest bytesWritten
      else (bytesWritten, false)

/-- `downloadImageHTTP(imagePath, serverHost, serverPort)`: returns the
success flag together with the SPIFFS state it leaves behind. -/
def downloadImageHTTP (env : Env) (resp : HttpResp) (cache : Cache)
    (imagePath : String) : Bool × Cache :=
  if resp.okCode = false then (false, cache)
  else if resp.contentLength ≠ (expectedSize : Int) then (false, cache)
  else
    let cache1 := ensureSPIFFSSpace env cache expectedSize
    let fullPath := IMAGE_CACHE_PATH ++ imagePath
    if env.openOk = false then (false, cache1)
    else
      let cache2 := Cache.set cache1 fullPath 0
      let res := streamLoop resp.chunks 0
      if res.2 then (false, Cache.remove cache2 fullPath)
      else if res.1 = expectedSize then (true, Cache.set cache2 fullPath res.1)
      else (false, Cache.remove cache2 fullPath)

/-- The `ClaudeState` enum. -/
inductive ClaudeState
  | CONNECTING
  | IDLE
  | THINKING
  | ERROR
  | RATE_LIMITED
  | WAITING_INPUT
deriving DecidableEq

/-- One `KeyOption` slot of `currentOptions[4]`. -/
structure KeyOption where
  text : String
  action : String
  imagePath : String
  color : Nat
  hasImage : Bool
deriving DecidableEq

/-- The mutable firmware state that the modelled code touches: the `fsm`
struct, `currentOptions`, `optionsUpdated`, `state.wsConnected`,
`state.sessionId`, and the static timestamps of the key-combo detector in
`handleKeyPress`. -/
structure Device where
  current : ClaudeState
  previous : ClaudeState
  rateLimitStartTime : Nat
  rateLimitCountdown : Int
  stateEntryTime : Nat
  ov0 : Bool
  ov1 : Bool
  ov2 : Bool
  ov3 : Bool
  opt0 : KeyOption
  opt1 : KeyOption
  opt2 : KeyOption
  opt3 : KeyOption
  optionsUpdated : Bool
  wsConnected : Bool
  sessionId : String
  key1PressTime : Nat
  key4PressTime : Nat
deriving DecidableEq

/-- Read `fsm.displayOverride[i]`.  Indices outside 0..3 do not exist in the
array; the accessor is total and the code never reaches it out of range. -/
def Device.override (dev : Device) (i : Nat) : Bool :=
  if i = 0 then dev.ov0
  else if i = 1 then dev.ov1
  else if i = 2 then dev.ov2
  else if i = 3 then dev.ov3
  else false

/-- Read `currentOptions[i]`. -/
def Device.optAt (dev : Device) : Nat → KeyOption
  | 0 => dev.opt0
  | 1 => dev.opt1
  | 2 => dev.opt2
  | _ => dev.opt3

/-- Write `fsm.displayOverride[i] = b` (guarded call sites only ever pass
0..3). -/
def setOverride (dev : Device) (i : Nat) (b : Bool) : Device :=
  if i = 0 then { dev with ov0 := b }
  else if i = 1 then { dev with ov1 := b }
  else if i = 2 then { dev with ov2 := b }
  else if i = 3 then { dev with ov3 := b }
  else dev

/-- Write `currentOptions[i] = o`. -/
def setOpt (dev : Device) (i : Nat) (o : KeyOption) : Device :=
  if i = 0 then { dev with opt0 := o }
  else if i = 1 then { dev with opt1 := o }
  else if i = 2 then { dev with opt2 := o }
  else if i = 3 then { dev with opt3 := o }
  else dev

/-- Device state plus SPIFFS contents. -/
structure World where
  dev : Device
  cache : Cache
deriving DecidableEq

/-- A reified TFT drawing action.  `rateLimitTimer` always targets physical
screen 3 (index 2) and `errorIcon` physical screen 2 (index 1), exactly as
`drawRateLimitTimer` and `drawErrorIcon` hard-code their screen select. -/
inductive Draw
  | fillBlack (d : Nat)
  | text (d : Nat) (s : String) (c : Nat)
  | largeText (d : Nat) (s : String) (c : Nat)
  | image (d : Nat) (path : String)
  | rateLimitTimer
  | errorIcon
  | overrideContent (d : Nat) (title : String) (content : String)
deriving DecidableEq

/-- The display surface a drawing action lands on. -/
def Draw.surface : Draw → Nat
  | Draw.fillBlack d => d
  | Draw.text d _ _ => d
  | Draw.largeText d _ _ => d
  | Draw.image d _ => d
  | Draw.rateLimitTimer => 2
  | Draw.errorIcon => 1
  | Draw.overrideContent d _ _ => d

/-- An outbound WebSocket message (`sendKeyPress`'s JSON payload). -/
inductive OutMsg
  | keyPress (sessionId : String) (key : Nat) (text : String)
deriving DecidableEq

/-- The body of `loadImageFromSPIFFS` after the file is known to exist:
open, allocate, `file.read(buffer, imageSize)` (which returns
`min fileSize imageSize` bytes), verify the count, push to the display. -/
def loadImageCore (env : Env) (cache : Cache) (fullPath : String)
    (displayIndex : Nat) : Bool × Cache × List Draw :=
  match Cache.lookup cache fullPath with
  | none => (false, cache, [])
  | some fileSize =>
      if env.allocOk = false then (false, cache, [])
      else if min fileSize expectedSize ≠ expectedSize then (false, cache, [])
      else (true, cache, [Draw.image displayIndex fullPath])

/-- `loadImageFromSPIFFS(path, displayIndex)`: on a cache miss, consult the
bridge preferences and attempt `downloadImageHTTP` first. -/
def loadImageFromSPIFFS (env : Env) (cache : Cache) (path : String)
    (displayIndex : Nat) : Bool × Cache × List Draw :=
  let fullPath := IMAGE_CACHE_PATH ++ path
  if Cache.lookup cache fullPath = none then
    if env.bridgeHost = "" then (false, cache, [])
    else
      let dl := downloadImageHTTP env (env.http path) cache path
      if dl.1 = false then (false, dl.2, [])
      else loadImageCore env dl.2 fullPath displayIndex
  else loadImageCore env cache fullPath displayIndex

/-- `renderDisplayForState(displayIndex, state)`. -/
def renderDisplayForState (env : Env) (cache : Cache) (opts : Nat → KeyOption)
    (displayIndex : Nat) (st : ClaudeState) : Cache × List Draw :=
  match st with
  | ClaudeState.CONNECTING =>
      match displayIndex with
      | 0 => (cache, [Draw.fillBlack 0])
      | 1 => (cache, [Draw.text 1 "Wait" 0x00FFFF])
      | 2 => (cache, [Draw.text 2 "ing" 0xFFFFFF])
      | 3 => (cache, [Draw.text 3 "..." 0x00FF00])
      | _ => (cache, [])
  | ClaudeState.IDLE | ClaudeState.THINKING | ClaudeState.WAITING_INPUT =>
      let o := opts displayIndex
      if o.hasImage then
        let r := loadImageFromSPIFFS env cache o.imagePath displayIndex
        if r.1 then (r.2.1, r.2.2)
        else (r.2.1, [Draw.text displayIndex o.text o.color])
      else (cache, [Draw.text displayIndex o.text o.color])
  | ClaudeState.RATE_LIMITED =>
      match displayIndex with
      | 0 => (cache, [Draw.largeText 0 "RATE" 0xFFFF00])
      | 1 => (cache, [Draw.largeText 1 "LIMIT" 0xFFFF00])
      | 2 => (cache, [Draw.rateLimitTimer])
      | 3 => (cache, [Draw.text 3 "Continue" 0x00FF00])
      | _ => (cache, [])
  | ClaudeState.ERROR =>
      match displayIndex with
      | 0 => (cache, [Draw.largeText 0 "ERROR" 0xFF0000])
      | 1 => (cache, [Draw.errorIcon])
      | 2 => (cache, [Draw.text 2 "Continue" 0x00FF00])
      | 3 => (cache, [Draw.text 3 "Retry" 0xFFA500])
      | _ => (cache, [])

/-- One iteration of `renderStateUI()`'s `for (i = 0; i < 4; i++)` loop:
a display with a manual override is skipped, any other is rendered for the
current state. -/
def renderStep (env : Env) (dev : Device) (acc : Cache × List Draw) (i : Nat) :
    Cache × List Draw :=
  if dev.override i then acc
  else
    let r := renderDisplayForState env acc.1 dev.optAt i dev.current
    (r.1, acc.2 ++ r.2)

/-- `renderStateUI()`: the loop over the four displays, unrolled. -/
def renderStateUI (env : Env) (w : World) : Cache × List Draw :=
  renderStep env w.dev
    (renderStep env w.dev
      (renderStep env w.dev
        (renderStep env w.dev (w.cache, []) 0) 1) 2) 3

/-- `exitState(state)`: leaving `RATE_LIMITED` clears the rate-limit data. -/
def exitState (dev : Device) (st : ClaudeState) : Device :=
  if st = ClaudeState.RATE_LIMITED then
    { dev with rateLimitStartTime := 0, rateLimitCountdown := 0 }
  else dev

/-- The state-specific entry action of `enterState(state)`: entering
`RATE_LIMITED` records a start time if none is recorded. -/
def enterDev (now : Nat) (dev : Device) (st : ClaudeState) : Device :=
  if st = ClaudeState.RATE_LIMITED then
    if dev.rateLimitStartTime = 0 then { dev with rateLimitStartTime := now }
    else dev
  else dev

/-- `enterState(state)`: state-specific entry action, then `renderStateUI()`. -/
def enterState (env : Env) (w : World) (st : ClaudeState) : World × List Draw :=
  let dev' := enterDev env.now w.dev st
  let r := renderStateUI env { dev := dev', cache := w.cache }
  ({ dev := dev', cache := r.1 }, r.2)

/-- `transitionToState(newState)`. -/
def transitionToState (env : Env) (w : World) (newState : ClaudeState) :
    World × List Draw :=
  if w.dev.current = newState then (w, [])
  else
    let d1 := exitState w.dev w.dev.current
    let d2 := { d1 with
                previous := w.dev.current,
                current := newState,
                stateEntryTime := env.now,
                ov0 := false, ov1 := false, ov2 := false, ov3 := false }
    enterState env { dev := d2, cache := w.cache } newState

/-- One entry of the `options` JSON array in an `update_options` message
(the hex colour string is modelled already parsed, as `strtoul(.., 16)`
leaves it). -/
structure OptionEntry where
  text : String
  action : String
  image : String
  color : Nat
deriving DecidableEq

/-- The per-slot assignment in the `update_options` handler: action defaults
to the display text when empty, `hasImage` is derived from the image path. -/
def applyOption (o : OptionEntry) : KeyOption :=
  let action := if o.action.length = 0 then o.text else o.action
  { text := o.text, action := action, imagePath := o.image,
    color := o.color, hasImage := decide (0 < o.image.length) }

/-- The `for (i = 0; i < 4 && i < options.size(); i++)` loop of the
`update_options` handler. -/
def updateSlots (dev : Device) (opts : List OptionEntry) : Device :=
  let d0 := match opts.get? 0 with
            | some o => setOpt dev 0 (applyOption o)
            | none => dev
  let d1 := match opts.get? 1 with
            | some o => setOpt d0 1 (applyOption o)
            | none => d0
  let d2 := match opts.get? 2 with
            | some o => setOpt d1 2 (applyOption o)
            | none => d1
  match opts.get? 3 with
  | some o => setOpt d2 3 (applyOption o)
  | none => d2

/-- A parsed inbound WebSocket message.  `status` carries the optional
`countdown` field (`doc["countdown"] | 0`); `display_update` carries the
optional `display` field (`doc["display"] | -1`). -/
inductive Msg
  | update_options (sessionId : String) (options : List OptionEntry)
  | status (state : String) (countdown : Option Int)
  | display_update (display : Option Int) (title : String) (content : String)
  | image (name : String) (data : String)
  | unknown (t : String)

/-- `processClaudeMessage(doc)`: returns the new world and the draws the
handler performs directly (state transitions render through
`transitionToState`). -/
def processClaudeMessage (env : Env) (w : World) : Msg → World × List Draw
  | Msg.update_options sid opts =>
      let dev := updateSlots { w.dev with sessionId := sid } opts
      ({ w with dev := { dev with optionsUpdated := true } }, [])
  | Msg.status s cd =>
      if s = "thinking" then transitionToState env w ClaudeState.THINKING
      else if s = "idle" then transitionToState env w ClaudeState.IDLE
      else if s = "error" then transitionToState env w ClaudeState.ERROR
      else if s = "limit" then
        let w' := { w with dev := { w.dev with rateLimitCountdown := cd.getD 0 } }
        transitionToState env w' ClaudeState.RATE_LIMITED
      else (w, [])
  | Msg.display_update d title content =>
      let displayNum := d.getD (-1)
      if 0 ≤ displayNum ∧ displayNum < 4 then
        let i := displayNum.toNat
        ({ w with dev := setOverride w.dev i true },
         [Draw.overrideContent i title content])
      else (w, [])
  | Msg.image name _data =>
      if env.openOk then
        ({ w with cache := Cache.set w.cache (IMAGE_CACHE_PATH ++ name) 0 }, [])
      else (w, [])
  | Msg.unknown _ => (w, [])

/-- `sendKeyPress(key)`: silently dropped when the WebSocket is down,
otherwise a `key_press` event carrying `currentOptions[key - 1].action`. -/
def sendKeyPress (dev : Device) (key : Nat) : List OutMsg :=
  if dev.wsConnected then
    [OutMsg.keyPress dev.sessionId key (dev.optAt (key - 1)).action]
  else []

/-- Result of one step of the modelled event loop or key handler. -/
structure StepRes where
  w : World
  draws : List Draw
  emits : List OutMsg
  restart : Bool
deriving DecidableEq

/-- `handleKeyPress(key)` (the LED flash is not modelled; the config-combo
restart is reported through the `restart` flag). -/
def handleKeyPress (env : Env) (w : World) (key : Nat) : StepRes :=
  if w.dev.current = ClaudeState.RATE_LIMITED ∧ key = 4 then
    let emits := sendKeyPress w.dev key
    let r := transitionToState env w ClaudeState.IDLE
    { w := r.1, draws := r.2, emits := emits, restart := false }
  else if w.dev.current = ClaudeState.ERROR ∧ key = 3 then
    let emits := sendKeyPress w.dev key
    let r := transitionToState env w ClaudeState.IDLE
    { w := r.1, draws := r.2, emits := emits, restart := false }
  else if w.dev.current = ClaudeState.ERROR ∧ key = 4 then
    { w := w, draws := [], emits := sendKeyPress w.dev key, restart := false }
  else
    let k1 := if key = 1 then env.now else w.dev.key1PressTime
    let k4 := if key = 4 then env.now else w.dev.key4PressTime
    let dev' := { w.dev with key1PressTime := k1, key4PressTime := k4 }
    if ((k1 : Int) - (k4 : Int)).natAbs < 500 then
      { w := { w with dev := dev' }, draws := [], emits := [], restart := true }
    else
      { w := { w with dev := dev' }, draws := [],
        emits := sendKeyPress dev' key, restart := false }

/-- An event the main `loop()` reacts to: an inbound message, the pending
options flush (`optionsUpdated && state.wsConnected`), the 1-second
rate-limit timer firing, the 50 ms error-icon timer firing, or a debounced
key press. -/
inductive Ev
  | msg (m : Msg)
  | flushOptions
  | secondTick
  | errorTick
  | key (k : Nat)

/-- One `loop()` servicing of a single event. -/
def stepEv (env : Env) (w : World) : Ev → StepRes
  | Ev.msg m =>
      let r := processClaudeMessage env w m
      { w := r.1, draws := r.2, emits := [], restart := false }
  | Ev.flushOptions =>
      if w.dev.optionsUpdated ∧ w.dev.wsConnected then
        let r := renderStateUI env w
        { w := { dev := { w.dev with optionsUpdated := false }, cache := r.1 },
          draws := r.2, emits := [], restart := false }
      else { w := w, draws := [], emits := [], restart := false }
  | Ev.secondTick =>
      if w.dev.current = ClaudeState.RATE_LIMITED then
        { w := { w with dev :=
            if 0 < w.dev.rateLimitCountdown then
              { w.dev with rateLimitCountdown := w.dev.rateLimitCountdown - 1 }
            else w.dev },
          draws := if w.dev.override 2 then [] else [Draw.rateLimitTimer],
          emits := [], restart := false }
      else { w := w, draws := [], emits := [], restart := false }
  | Ev.errorTick =>
      if w.dev.current = ClaudeState.ERROR then
        { w := w, draws := if w.dev.override 1 then [] else [Draw.errorIcon],
          emits := [], restart := false }
      else { w := w, draws := [], emits := [], restart := false }
  | Ev.key k => handleKeyPress env w k

/-- Run a list of events through `stepEv`, concatenating the observable
effects; a config-mode restart stops the run (`ESP.restart()`). -/
def runEvents (env : Env) : World → List Ev → StepRes
  | w, [] => { w := w, draws := [], emits := [], restart := false }
  | w, e :: es =>
      let s := stepEv env w e
      if s.restart then s
      else
        let r := runEvents env s.w es
        { w := r.w, draws := s.draws ++ r.draws,
          emits := s.emits ++ r.emits, restart := r.restart }

/-- The WiFi retry-delay update in `loop()`: after a failed reconnect
attempt the delay doubles up to `MAX_RETRY_DELAY` (60000 ms); after a
successful one it resets to the 5000 ms base. -/
def wifiRetryUpdate (connected : Bool) (retryDelay : Nat) : Nat :=
  if connected then 5000 else min (retryDelay * 2) 60000

/-- The delay sequence across consecutive failures, from the 5000 ms base. -/
def wifiDelaySeq : Nat → Nat
  | 0 => 5000
  | n + 1 => wifiRetryUpdate false (wifiDelaySeq n)

/-- Events that can touch neither the state (no `status` transition, no key
press — the only two transition sources) nor, manually, surface `i` (no
`display_update` aimed at `i`).  This delimits the claim's "no state
transition occurs and the surface is not explicitly re-overridden" window. -/
def safeForOverride (i : Nat) : Ev → Bool
  | Ev.msg (Msg.update_options _ _) => true
  | Ev.msg (Msg.status _ _) => false
  | Ev.msg (Msg.display_update d _ _) => decide (¬ d.getD (-1) = (i : Int))
  | Ev.msg (Msg.image _ _) => true
  | Ev.msg (Msg.unknown _) => true
  | Ev.flushOptions => true
  | Ev.secondTick => true
  | Ev.errorTick => true
  | Ev.key _ => false

/-- The cache-entry well-formedness invariant of the spec: every stored
image file holds exactly the fixed image size. -/
def cacheWellFormed (c : Cache) : Prop :=
  ∀ e ∈ c, e.2 = expectedSize

instance (c : Cache) : Decidable (cacheWellFormed c) :=
  List.decidableBAll _ c

/-- A key option with no image, as after boot. -/
def blankOption : KeyOption :=
  { text := "", action := "", imagePath := "", color := 0, hasImage := false }

/-- A benign environment: no bridge host configured, HTTP always failing,
plenty of flash. -/
def env0 : Env :=
  { now := 100000, bridgeHost := "", bridgePort := 8080,
    http := fun _ => { okCode := false, contentLength := 0, chunks := [] },
    openOk := true, allocOk := true, rand := 0,
    spiffsTotal := 1000000, otherUsed := 0 }

/-- An idle, connected device with blank options. -/
def dev0 : Device :=
  { current := ClaudeState.IDLE, previous := ClaudeState.CONNECTING,
    rateLimitStartTime := 0, rateLimitCountdown := 0, stateEntryTime := 0,
    ov0 := false, ov1 := false, ov2 := false, ov3 := false,
    opt0 := blankOption, opt1 := blankOption, opt2 := blankOption,
    opt3 := blankOption, optionsUpdated := false, wsConnected := true,
    sessionId := "s1", key1PressTime := 0, key4PressTime := 0 }

/-- Idle world over an empty cache. -/
def w0 : World := { dev := dev0, cache := [] }

/-- A rate-limited device, 45 seconds left on the countdown, socket up,
slot 4 carrying a continue action. -/
def wRL45 : World :=
  { dev := { dev0 with
             current := ClaudeState.RATE_LIMITED,
             rateLimitStartTime := 5000,
             rateLimitCountdown := 45,
             opt3 := { text := "Continue", action := "continue",
                       imagePath := "", color := 0x00FF00, hasImage := false } },
    cache := [] }

/-- SPIFFS geometry for the eviction counterexample: 70000 bytes total,
three 20000-byte images cached, so 10000 bytes free. -/
def envEvict : Env := { env0 with spiffsTotal := 70000 }

/-- Three cached 20000-byte images. -/
def cacheEvict : Cache :=
  [("/images/a.rgb", 20000), ("/images/b.rgb", 20000), ("/images/c.rgb", 20000)]

/-- An HTTP response whose Content-Length is not the expected image size. -/
def respWrongLen : HttpResp := { okCode := true, contentLength := 100, chunks := [] }

/-- A world in THINKING with the slot-1 display manually overridden (as left
behind by a `display_update` for display 1). -/
def wOverride1 : World :=
  { dev := { dev0 with
             current := ClaudeState.THINKING,
             ov1 := true,
             optionsUpdated := true },
    cache := [] }

/-- A slot configuration pointing at an image asset. -/
def optsImg : Nat → KeyOption :=
  fun _ => { text := "Stop", action := "stop", imagePath := "stop.rgb",
             color := 255, hasImage := true }

/-- Fresh option payloads for slots other than slot 1 (slot 1's entry keeps
its old text; `update_options` always carries all four slots). -/
def optsOther : List OptionEntry :=
  [{ text := "Yes", action := "", image := "", color := 7 },
   { text := "", action := "", image := "", color := 0 },
   { text := "No", action := "no", image := "", color := 9 },
   { text := "Stop", action := "", image := "", color := 1 }]

/-- lookup after removing the same key is always a miss. -/
theorem lookup_remove_self (c : Cache) (k : String) :
    Cache.lookup (Cache.remove c k) k = none := by
  induction c with
  | nil => rfl
  | cons e rest ih =>
      obtain ⟨k', v⟩ := e
      by_cases h : k' = k
      · simp [Cache.remove, h, ih]
      · simp [Cache.remove, Cache.lookup, h, ih]

/-- Removing some key never makes another key appear. -/
theorem lookup_remove_none (c : Cache) (k k' : String)
    (h : Cache.lookup c k = none) :
    Cache.lookup (Cache.remove c k') k = none := by
  induction c with
  | nil => rfl
  | cons e rest ih =>
      obtain ⟨k0, v⟩ := e
      by_cases h0 : k0 = k
      · simp [Cache.lookup, h0] at h
      · simp [Cache.lookup, h0] at h
        by_cases h1 : k0 = k'
        · simp [Cache.remove, h1, ih h]
        · simp [Cache.remove, Cache.lookup, h0, h1, ih h]

/-- Setting a key makes it present with the written size. -/
theorem lookup_set_self (c : Cache) (k : String) (v : Nat) :
    Cache.lookup (Cache.set c k v) k = some v := by
  induction c with
  | nil => simp [Cache.set, Cache.lookup]
  | cons e rest ih =>
      obtain ⟨k0, v0⟩ := e
      by_cases h : k0 = k
      · simp [Cache.set, h, Cache.lookup]
      · simp [Cache.set, Cache.lookup, h, ih]

/-- `deleteRandomImage` never makes an absent key appear. -/
theorem lookup_delete_none (r : Nat) (c : Cache) (k : String)
    (h : Cache.lookup c k = none) :
    Cache.lookup (deleteRandomImage r c) k = none := by
  unfold deleteRandomImage
  by_cases he : (c.filter (fun e => strEndsWith e.1 rgbSuffix)).isEmpty
  · simpa [he] using h
  · simpa [he] using lookup_remove_none c k _ h

/-- The eviction loop never makes an absent key appear. -/
theorem lookup_ensureLoop_none (env : Env) (req fuel : Nat) (c : Cache)
    (k : String) (h : Cache.lookup c k = none) :
    Cache.lookup (ensureLoop env req fuel c) k = none := by
  induction fuel generalizing c with
  | zero => simpa [ensureLoop] using h
  | succ n ih =>
      unfold ensureLoop
      by_cases h1 : env.spiffsTotal - usedBytes env c < req + SAFETY_MARGIN
      · have hdel := lookup_delete_none env.rand c k h
        by_cases h2 :
            env.spiffsTotal - usedBytes env (deleteRandomImage env.rand c)
              = env.spiffsTotal - usedBytes env (deleteRandomImage env.rand c)
        · simpa [h1, h2] using hdel
        · exact absurd rfl h2
      · simpa [h1] using h

/-- `ensureSPIFFSSpace` never makes an absent key appear. -/
theorem lookup_ensure_none (env : Env) (c : Cache) (req : Nat) (k : String)
    (h : Cache.lookup c k = none) :
    Cache.lookup (ensureSPIFFSSpace env c req) k = none :=
  lookup_ensureLoop_none env req (c.length + 1) c k h

/-- The always-true "safety check" makes `ensureSPIFFSSpace` a single-shot
operation: when space is short it evicts exactly one random image and
returns, whether or not the space became sufficient. -/
theorem ensureSPIFFSSpace_single_step (env : Env) (c : Cache) (req : Nat) :
    ensureSPIFFSSpace env c req =
      (if env.spiffsTotal - usedBytes env c < req + SAFETY_MARGIN then
        deleteRandomImage env.rand c
      else c) := by
  unfold ensureSPIFFSSpace ensureLoop
  by_cases h1 : env.spiffsTotal - usedBytes env c < req + SAFETY_MARGIN
  · simp [h1]
  · simp [h1]

/-- Claim C8: for every sequence of consecutive wireless reconnection
failures the delay sequence starts at the 5000 ms base, obeys
d(i+1) = min(2*d(i), 60000), is non-decreasing and bounded by the 60000 ms
cap, and one success resets the delay to the base. -/
theorem C8_wifi_backoff :
    wifiDelaySeq 0 = 5000 ∧
    (∀ i, wifiDelaySeq (i + 1) = min (2 * wifiDelaySeq i) 60000) ∧
    (∀ i, wifiDelaySeq i ≤ wifiDelaySeq (i + 1)) ∧
    (∀ i, wifiDelaySeq i ≤ 60000) ∧
    (∀ d, wifiRetryUpdate true d = 5000) := by
  have hbound : ∀ i, 5000 ≤ wifiDelaySeq i ∧ wifiDelaySeq i ≤ 60000 := by
    intro i
    induction i with
    | zero => constructor <;> simp [wifiDelaySeq]
    | succ n ih =>
        constructor
        · simp only [wifiDelaySeq, wifiRetryUpdate, if_neg Bool.false_ne_true]
          omega
        · simp only [wifiDelaySeq, wifiRetryUpdate, if_neg Bool.false_ne_true]
          omega
  refine ⟨rfl, ?_, ?_, fun i => (hbound i).2, fun d => rfl⟩
  · intro i
    simp only [wifiDelaySeq, wifiRetryUpdate, if_neg Bool.false_ne_true]
    omega
  · intro i
    have h := hbound i
    simp only [wifiDelaySeq, wifiRetryUpdate, if_neg Bool.false_ne_true]
    omega

/-- Claim C10: a `display_update` whose display index is missing (defaulted
to -1) or outside 0..3 is dropped whole: no override flag is set, nothing
is drawn, the world is unchanged (and the guarded handler never indexes the
override array at all). -/
theorem C10_invalid_display_ignored (env : Env) (w : World) (d : Option Int)
    (title content : String)
    (h : ¬(0 ≤ d.getD (-1) ∧ d.getD (-1) < 4)) :
    processClaudeMessage env w (Msg.display_update d title content) = (w, []) := by
  simp [processClaudeMessage, h]

theorem C10_invalid_display_ignored_witness :
    (¬(0 ≤ (some (7 : Int)).getD (-1) ∧ (some (7 : Int)).getD (-1) < 4)) ∧
    processClaudeMessage env0 w0 (Msg.display_update (some 7) "T" "C") = (w0, []) :=
  ⟨by decide, C10_invalid_display_ignored env0 w0 (some 7) "T" "C" (by decide)⟩

/-- Claim C3 (code bug): with three 20000-byte cached images, 10000 bytes
free and a 30000-byte request (34096 with the safety margin), the need is
satisfiable by evicting two images, yet `ensureSPIFFSSpace` stops after a
single eviction — its "safety check to prevent infinite loop" compares
`freeBytes` with the value just assigned to it, so it always breaks — and
returns with the space still insufficient, signalling nothing. -/
theorem C3_evict_loop_breaks_after_one :
    (ensureSPIFFSSpace envEvict cacheEvict 30000).length = 2 ∧
    envEvict.spiffsTotal - usedBytes envEvict (ensureSPIFFSSpace envEvict cacheEvict 30000)
      < 30000 + SAFETY_MARGIN ∧
    30000 + SAFETY_MARGIN ≤
      envEvict.spiffsTotal -
        usedBytes envEvict
          (deleteRandomImage envEvict.rand (deleteRandomImage envEvict.rand cacheEvict)) := by
  refine ⟨?_, ?_, ?_⟩ <;> decide

/-- Claim C4 (code bug): the push-path `image` message handler opens the
target file with `FILE_WRITE` (creating a zero-byte entry), never decodes or
writes the payload ("Implementation needed for base64 decoding"), and keeps
the file.  Starting from a well-formed cache, one `image` message leaves a
retained zero-byte entry, violating the all-entries-complete invariant. -/
theorem C4_image_push_retains_empty_entry :
    cacheWellFormed [("/images/ok.rgb", expectedSize)] ∧
    Cache.lookup
      (stepEv env0 { dev := dev0, cache := [("/images/ok.rgb", expectedSize)] }
        (Ev.msg (Msg.image "new.rgb" "QUJD"))).w.cache
      "/images/new.rgb" = some 0 ∧
    ¬ cacheWellFormed
        (stepEv env0 { dev := dev0, cache := [("/images/ok.rgb", expectedSize)] }
          (Ev.msg (Msg.image "new.rgb" "QUJD"))).w.cache := by
  refine ⟨?_, ?_, ?_⟩ <;> decide

/-- The entry action only ever touches `rateLimitStartTime`. -/
theorem enterDev_spec (now : Nat) (dev : Device) (st : ClaudeState) :
    enterDev now dev st =
      { dev with rateLimitStartTime :=
          if st = ClaudeState.RATE_LIMITED ∧ dev.rateLimitStartTime = 0 then now
          else dev.rateLimitStartTime } := by
  unfold enterDev
  by_cases h1 : st = ClaudeState.RATE_LIMITED
  · by_cases h2 : dev.rateLimitStartTime = 0 <;> simp [h1, h2]
  · simp [h1]

/-- The exit action only ever clears the rate-limit record. -/
theorem exitState_spec (dev : Device) (st : ClaudeState) :
    exitState dev st =
      { dev with
        rateLimitStartTime :=
          if st = ClaudeState.RATE_LIMITED then 0 else dev.rateLimitStartTime,
        rateLimitCountdown :=
          if st = ClaudeState.RATE_LIMITED then 0 else dev.rateLimitCountdown } := by
  unfold exitState
  by_cases h : st = ClaudeState.RATE_LIMITED <;> simp [h]

/-- `transitionToState` into the current state does nothing at all. -/
theorem transition_noop (env : Env) (w : World) (s : ClaudeState)
    (h : w.dev.current = s) : transitionToState env w s = (w, []) := by
  simp [transitionToState, h]

/-- The device left behind by a real transition, spelled out. -/
theorem transition_dev_eq (env : Env) (w : World) (s : ClaudeState)
    (h : ¬ w.dev.current = s) :
    (transitionToState env w s).1.dev =
      enterDev env.now
        { exitState w.dev w.dev.current with
          previous := w.dev.current, current := s, stateEntryTime := env.now,
          ov0 := false, ov1 := false, ov2 := false, ov3 := false } s := by
  simp only [transitionToState, if_neg h, enterState]

/-- A real transition lands in the requested state. -/
theorem transition_current (env : Env) (w : World) (s : ClaudeState)
    (h : ¬ w.dev.current = s) :
    (transitionToState env w s).1.dev.current = s := by
  rw [transition_dev_eq env w s h, enterDev_spec]

/-- A transition out of a state other than `RATE_LIMITED` preserves the
stored countdown. -/
theorem transition_countdown (env : Env) (w : World) (s : ClaudeState)
    (h : ¬ w.dev.current = s) (hc : ¬ w.dev.current = ClaudeState.RATE_LIMITED) :
    (transitionToState env w s).1.dev.rateLimitCountdown
      = w.dev.rateLimitCountdown := by
  rw [transition_dev_eq env w s h, enterDev_spec, exitState_spec]
  simp [hc]

/-- Processing `status:"limit"` stores the countdown and lands in
`RATE_LIMITED`, whatever state the device was in. -/
theorem processStatusLimit (env : Env) (w : World) (n : Int) :
    (processClaudeMessage env w (Msg.status "limit" (some n))).1.dev.current
      = ClaudeState.RATE_LIMITED ∧
    (processClaudeMessage env w (Msg.status "limit" (some n))).1.dev.rateLimitCountdown
      = n := by
  have hred : processClaudeMessage env w (Msg.status "limit" (some n)) =
      transitionToState env
        { w with dev := { w.dev with rateLimitCountdown := n } }
        ClaudeState.RATE_LIMITED := rfl
  rw [hred]
  by_cases h :
      ({ w with dev := { w.dev with rateLimitCountdown := n } } : World).dev.current
        = ClaudeState.RATE_LIMITED
  · rw [transition_noop env _ _ h]
    exact ⟨h, rfl⟩
  · exact ⟨transition_current env _ _ h,
      by rw [transition_countdown env _ _ h h]⟩

/-- One second-timer firing while rate-limited with a positive countdown. -/
theorem stepSecondTick_RL (env : Env) (w : World)
    (h1 : w.dev.current = ClaudeState.RATE_LIMITED)
    (hc : 0 < w.dev.rateLimitCountdown) :
    stepEv env w Ev.secondTick =
      { w := { w with dev :=
          { w.dev with rateLimitCountdown := w.dev.rateLimitCountdown - 1 } },
        draws := if w.dev.override 2 then [] else [Draw.rateLimitTimer],
        emits := [], restart := false } := by
  unfold stepEv
  rw [if_pos h1, if_pos hc]

/-- While rate-limited, `n` one-second timer firings drive a countdown of
`n` down to zero without ever leaving `RATE_LIMITED`. -/
theorem tickRL (env : Env) (n : Nat) : ∀ w : World,
    w.dev.current = ClaudeState.RATE_LIMITED →
    w.dev.rateLimitCountdown = (n : Int) →
    (runEvents env w (List.replicate n Ev.secondTick)).w.dev.current
      = ClaudeState.RATE_LIMITED ∧
    (runEvents env w (List.replicate n Ev.secondTick)).w.dev.rateLimitCountdown = 0 := by
  induction n with
  | zero =>
      intro w h1 h2
      exact ⟨by simpa [runEvents] using h1, by simpa [runEvents] using h2⟩
  | succ m ih =>
      intro w h1 h2
      have hc : (0 : Int) < w.dev.rateLimitCountdown := by
        rw [h2]; exact_mod_cast Nat.succ_pos m
      have hr := ih { w with dev :=
          { w.dev with rateLimitCountdown := w.dev.rateLimitCountdown - 1 } }
        (by simpa using h1) (by simp only [h2]; omega)
      rw [List.replicate_succ]
      simp only [runEvents, stepSecondTick_RL env w h1 hc]
      simpa using hr

/-- Claim C2, counterexample: from `Idle`, a `status:"limit"` with countdown
45 followed by 45 one-second ticks leaves the device still in
`RATE_LIMITED` with the countdown exhausted — it does not autonomously
return to `Idle`. -/
theorem C2_counterexample :
    (runEvents env0 w0
        (Ev.msg (Msg.status "limit" (some 45)) :: List.replicate 45 Ev.secondTick)).w.dev.current
      = ClaudeState.RATE_LIMITED ∧
    (runEvents env0 w0
        (Ev.msg (Msg.status "limit" (some 45)) :: List.replicate 45 Ev.secondTick)).w.dev.current
      ≠ ClaudeState.IDLE ∧
    (runEvents env0 w0
        (Ev.msg (Msg.status "limit" (some 45)) :: List.replicate 45 Ev.secondTick)).w.dev.rateLimitCountdown
      = 0 := by
  refine ⟨by decide, by decide, by decide⟩

/-- Claim C2, amended: a `status:"limit"` message with countdown 45 puts the
device in `RateLimited` with `countdownSeconds == 45`; 45 subsequent
one-second ticks drive the countdown to 0, but the device stays in
`RateLimited` (the timer then shows elapsed time) — it leaves only on a
later inbound status message or continue-key press, never autonomously. -/
theorem C2_limit45_no_auto_idle (env : Env) (w : World) :
    (stepEv env w (Ev.msg (Msg.status "limit" (some 45)))).w.dev.current
      = ClaudeState.RATE_LIMITED ∧
    (stepEv env w (Ev.msg (Msg.status "limit" (some 45)))).w.dev.rateLimitCountdown = 45 ∧
    (runEvents env (stepEv env w (Ev.msg (Msg.status "limit" (some 45)))).w
        (List.replicate 45 Ev.secondTick)).w.dev.current = ClaudeState.RATE_LIMITED ∧
    (runEvents env (stepEv env w (Ev.msg (Msg.status "limit" (some 45)))).w
        (List.replicate 45 Ev.secondTick)).w.dev.rateLimitCountdown = 0 := by
  have h := processStatusLimit env w 45
  have hcur : (stepEv env w (Ev.msg (Msg.status "limit" (some 45)))).w.dev.current
      = ClaudeState.RATE_LIMITED := h.1
  have hcd : (stepEv env w (Ev.msg (Msg.status "limit" (some 45)))).w.dev.rateLimitCountdown
      = 45 := h.2
  have ht := tickRL env 45 (stepEv env w (Ev.msg (Msg.status "limit" (some 45)))).w
    hcur (by exact_mod_cast hcd)
  exact ⟨hcur, hcd, ht.1, ht.2⟩

/-- Claim C1, counterexample: in `RATE_LIMITED` with 45 seconds still on the
countdown, pressing button 4 already emits a `key_press` and transitions to
`IDLE` — the continue key is not gated on the countdown reaching zero. -/
theorem C1_counterexample :
    wRL45.dev.current = ClaudeState.RATE_LIMITED ∧
    (0 : Int) < wRL45.dev.rateLimitCountdown ∧
    (handleKeyPress env0 wRL45 4).emits
      = [OutMsg.keyPress "s1" 4 "continue"] ∧
    (handleKeyPress env0 wRL45 4).w.dev.current = ClaudeState.IDLE := by
  refine ⟨by decide, by decide, by decide, by decide⟩

/-- Claim C1, amended: whenever the device is in `RATE_LIMITED`, pressing
button 4 — regardless of the remaining countdown — transitions the state to
`Idle` and, when the socket is connected, emits
`key_press {keyIndex: 4, text: slot 4 action text}` (with the socket down,
nothing is emitted but the transition still happens). -/
theorem C1_continue_key_ungated (env : Env) (w : World)
    (h : w.dev.current = ClaudeState.RATE_LIMITED) :
    (handleKeyPress env w 4).w.dev.current = ClaudeState.IDLE ∧
    (handleKeyPress env w 4).emits =
      (if w.dev.wsConnected then
        [OutMsg.keyPress w.dev.sessionId 4 w.dev.opt3.action]
      else []) := by
  have hcond : w.dev.current = ClaudeState.RATE_LIMITED ∧ (4 : Nat) = 4 := ⟨h, rfl⟩
  have hne : ¬ w.dev.current = ClaudeState.IDLE := by rw [h]; decide
  unfold handleKeyPress
  rw [if_pos hcond]
  exact ⟨transition_current env w ClaudeState.IDLE hne, rfl⟩

theorem C1_continue_key_ungated_witness :
    wRL45.dev.current = ClaudeState.RATE_LIMITED ∧
    ((handleKeyPress env0 wRL45 4).w.dev.current = ClaudeState.IDLE ∧
     (handleKeyPress env0 wRL45 4).emits =
       (if wRL45.dev.wsConnected then
         [OutMsg.keyPress wRL45.dev.sessionId 4 wRL45.dev.opt3.action]
       else [])) :=
  ⟨rfl, C1_continue_key_ungated env0 wRL45 rfl⟩

/-- Claim C5: `transitionToState` is a no-op — no exit/entry actions, no
re-render, no state change — when the target equals the current state;
otherwise it runs the exit actions of the current state (leaving
`RATE_LIMITED` clears the countdown and start time), sets
`previous = current` and `current = newState`, clears all four
`manualOverride` flags, runs the entry actions of the new state (entering
`RATE_LIMITED` records a start time if none was recorded), and the emitted
drawing is exactly a `renderStateUI` pass over the post-entry device. -/
theorem C5_transition_contract (env : Env) (w : World) (s : ClaudeState)
    (h : ¬ w.dev.current = s) :
    transitionToState env w w.dev.current = (w, []) ∧
    (transitionToState env w s).1.dev.previous = w.dev.current ∧
    (transitionToState env w s).1.dev.current = s ∧
    (transitionToState env w s).1.dev.ov0 = false ∧
    (transitionToState env w s).1.dev.ov1 = false ∧
    (transitionToState env w s).1.dev.ov2 = false ∧
    (transitionToState env w s).1.dev.ov3 = false ∧
    (w.dev.current = ClaudeState.RATE_LIMITED →
      (transitionToState env w s).1.dev.rateLimitCountdown = 0 ∧
      (transitionToState env w s).1.dev.rateLimitStartTime = 0) ∧
    (s = ClaudeState.RATE_LIMITED →
      (transitionToState env w s).1.dev.rateLimitStartTime =
        (if w.dev.rateLimitStartTime = 0 then env.now
         else w.dev.rateLimitStartTime)) ∧
    renderStateUI env { dev := (transitionToState env w s).1.dev, cache := w.cache }
      = ((transitionToState env w s).1.cache, (transitionToState env w s).2) := by
  have hdev := transition_dev_eq env w s h
  refine ⟨transition_noop env w w.dev.current rfl, ?_,
    transition_current env w s h, ?_, ?_, ?_, ?_, ?_, ?_, ?_⟩
  · rw [hdev, enterDev_spec]
  · rw [hdev, enterDev_spec]
  · rw [hdev, enterDev_spec]
  · rw [hdev, enterDev_spec]
  · rw [hdev, enterDev_spec]
  · intro hc
    have hs : ¬ s = ClaudeState.RATE_LIMITED := fun heq => h (by rw [hc, heq])
    constructor
    · rw [hdev, enterDev_spec, exitState_spec]
      simp [hc]
    · rw [hdev, enterDev_spec, exitState_spec]
      simp [hc, hs]
  · intro hs
    have hc : ¬ w.dev.current = ClaudeState.RATE_LIMITED := fun heq => h (by rw [heq, hs])
    rw [hdev, enterDev_spec, exitState_spec]
    simp [hc, hs]
  · simp only [transitionToState, if_neg h, enterState]

theorem C5_transition_contract_witness :
    transitionToState env0 w0 w0.dev.current = (w0, []) ∧
    (transitionToState env0 w0 ClaudeState.THINKING).1.dev.previous = w0.dev.current ∧
    (transitionToState env0 w0 ClaudeState.THINKING).1.dev.current = ClaudeState.THINKING ∧
    (transitionToState env0 w0 ClaudeState.THINKING).1.dev.ov0 = false ∧
    (transitionToState env0 w0 ClaudeState.THINKING).1.dev.ov1 = false ∧
    (transitionToState env0 w0 ClaudeState.THINKING).1.dev.ov2 = false ∧
    (transitionToState env0 w0 ClaudeState.THINKING).1.dev.ov3 = false ∧
    (w0.dev.current = ClaudeState.RATE_LIMITED →
      (transitionToState env0 w0 ClaudeState.THINKING).1.dev.rateLimitCountdown = 0 ∧
      (transitionToState env0 w0 ClaudeState.THINKING).1.dev.rateLimitStartTime = 0) ∧
    (ClaudeState.THINKING = ClaudeState.RATE_LIMITED →
      (transitionToState env0 w0 ClaudeState.THINKING).1.dev.rateLimitStartTime =
        (if w0.dev.rateLimitStartTime = 0 then env0.now
         else w0.dev.rateLimitStartTime)) ∧
    renderStateUI env0
        { dev := (transitionToState env0 w0 ClaudeState.THINKING).1.dev, cache := w0.cache }
      = ((transitionToState env0 w0 ClaudeState.THINKING).1.cache,
         (transitionToState env0 w0 ClaudeState.THINKING).2) :=
  C5_transition_contract env0 w0 ClaudeState.THINKING (by decide)

/-- Claim C6: an asset absent from the cache stays absent across any failed
`downloadImageHTTP` attempt — wrong HTTP code, wrong Content-Length, open
failure, write error, or a received byte count different from the expected
fixed size all leave the asset a MISS (partial writes are deleted) — and a
successful attempt stores exactly the expected byte count. -/
theorem C6_download_atomic (env : Env) (resp : HttpResp) (cache : Cache)
    (path : String)
    (h : Cache.lookup cache (IMAGE_CACHE_PATH ++ path) = none) :
    ((downloadImageHTTP env resp cache path).1 = false →
      Cache.lookup (downloadImageHTTP env resp cache path).2
        (IMAGE_CACHE_PATH ++ path) = none) ∧
    ((downloadImageHTTP env resp cache path).1 = true →
      Cache.lookup (downloadImageHTTP env resp cache path).2
        (IMAGE_CACHE_PATH ++ path) = some expectedSize) := by
  by_cases h1 : resp.okCode = false
  · simp only [downloadImageHTTP, if_pos h1]
    exact ⟨fun _ => h, fun ht => absurd ht Bool.false_ne_true⟩
  · by_cases h2 : resp.contentLength ≠ (expectedSize : Int)
    · simp only [downloadImageHTTP, if_neg h1, if_pos h2]
      exact ⟨fun _ => h, fun ht => absurd ht Bool.false_ne_true⟩
    · have hnone1 : Cache.lookup (ensureSPIFFSSpace env cache expectedSize)
          (IMAGE_CACHE_PATH ++ path) = none :=
        lookup_ensure_none env cache expectedSize _ h
      by_cases h3 : env.openOk = false
      · simp only [downloadImageHTTP, if_neg h1, if_neg h2, if_pos h3]
        exact ⟨fun _ => hnone1, fun ht => absurd ht Bool.false_ne_true⟩
      · by_cases h4 : (streamLoop resp.chunks 0).2 = true
        · simp only [downloadImageHTTP, if_neg h1, if_neg h2, if_neg h3, if_pos h4]
          exact ⟨fun _ => lookup_remove_self _ _, fun ht => absurd ht Bool.false_ne_true⟩
        · by_cases h5 : (streamLoop resp.chunks 0).1 = expectedSize
          · simp only [downloadImageHTTP, if_neg h1, if_neg h2, if_neg h3, if_neg h4,
              if_pos h5]
            refine ⟨fun hf => absurd hf (by decide), fun _ => ?_⟩
            rw [lookup_set_self, h5]
          · simp only [downloadImageHTTP, if_neg h1, if_neg h2, if_neg h3, if_neg h4,
              if_neg h5]
            exact ⟨fun _ => lookup_remove_self _ _, fun ht => absurd ht Bool.false_ne_true⟩

theorem C6_download_atomic_witness :
    Cache.lookup ([] : Cache) (IMAGE_CACHE_PATH ++ "x.rgb") = none ∧
    (((downloadImageHTTP env0 respWrongLen [] "x.rgb").1 = false →
      Cache.lookup (downloadImageHTTP env0 respWrongLen [] "x.rgb").2
        (IMAGE_CACHE_PATH ++ "x.rgb") = none) ∧
     ((downloadImageHTTP env0 respWrongLen [] "x.rgb").1 = true →
      Cache.lookup (downloadImageHTTP env0 respWrongLen [] "x.rgb").2
        (IMAGE_CACHE_PATH ++ "x.rgb") = some expectedSize)) :=
  ⟨rfl, C6_download_atomic env0 respWrongLen [] "x.rgb" rfl⟩

/-- On a cache miss with no way to download (no bridge host configured, or
the peer's HTTP endpoint not answering OK), `loadImageFromSPIFFS` fails
cleanly and leaves the cache untouched. -/
theorem loadImage_unreachable (env : Env) (cache : Cache) (path : String)
    (i : Nat)
    (hmiss : Cache.lookup cache (IMAGE_CACHE_PATH ++ path) = none)
    (hdown : env.bridgeHost = "" ∨ (env.http path).okCode = false) :
    loadImageFromSPIFFS env cache path i = (false, cache, []) := by
  unfold loadImageFromSPIFFS
  rw [if_pos hmiss]
  by_cases hb : env.bridgeHost = ""
  · rw [if_pos hb]
  · have hok : (env.http path).okCode = false := hdown.resolve_left hb
    have hdl : downloadImageHTTP env (env.http path) cache path = (false, cache) := by
      unfold downloadImageHTTP
      rw [if_pos hok]
    rw [if_neg hb, hdl]
    simp

/-- Claim C9: rendering a slot whose image asset is missing — not cached and
not downloadable (bridge host unconfigured or peer not answering) — never
skips the slot: the renderer falls back to drawing the slot's text label
(and, being a total function, cannot crash or leak an exception). -/
theorem C9_missing_image_text_fallback (env : Env) (cache : Cache)
    (opts : Nat → KeyOption) (i : Nat) (st : ClaudeState)
    (hst : st = ClaudeState.IDLE ∨ st = ClaudeState.THINKING ∨
      st = ClaudeState.WAITING_INPUT)
    (himg : (opts i).hasImage = true)
    (hmiss : Cache.lookup cache (IMAGE_CACHE_PATH ++ (opts i).imagePath) = none)
    (hdown : env.bridgeHost = "" ∨ (env.http (opts i).imagePath).okCode = false) :
    renderDisplayForState env cache opts i st
      = (cache, [Draw.text i (opts i).text (opts i).color]) := by
  have hload := loadImage_unreachable env cache (opts i).imagePath i hmiss hdown
  rcases hst with h | h | h <;> subst h <;>
    simp [renderDisplayForState, himg, hload]

theorem C9_missing_image_text_fallback_witness :
    ((optsImg 0).hasImage = true) ∧
    (Cache.lookup ([] : Cache) (IMAGE_CACHE_PATH ++ (optsImg 0).imagePath) = none) ∧
    (env0.bridgeHost = "" ∨ (env0.http (optsImg 0).imagePath).okCode = false) ∧
    renderDisplayForState env0 [] optsImg 0 ClaudeState.IDLE
      = ([], [Draw.text 0 (optsImg 0).text (optsImg 0).color]) :=
  ⟨rfl, rfl, Or.inl rfl,
   C9_missing_image_text_fallback env0 [] optsImg 0 ClaudeState.IDLE
     (Or.inl rfl) rfl rfl (Or.inl rfl)⟩

/-- `loadImageCore` draws nothing or exactly one image push to its display. -/
theorem loadImageCore_draws (env : Env) (cache : Cache) (fp : String) (i : Nat) :
    (loadImageCore env cache fp i).2.2 = [] ∨
    (loadImageCore env cache fp i).2.2 = [Draw.image i fp] := by
  rcases hl : Cache.lookup cache fp with _ | sz
  · unfold loadImageCore
    rw [hl]
    exact Or.inl rfl
  · unfold loadImageCore
    rw [hl]
    by_cases h1 : env.allocOk = false
    · simp [h1]
    · by_cases h2 : min sz expectedSize ≠ expectedSize
      · simp [h1, h2]
      · simp [h1, h2]

/-- `loadImageFromSPIFFS` draws nothing or exactly one image push to its
display. -/
theorem loadImage_draws (env : Env) (cache : Cache) (path : String) (i : Nat) :
    (loadImageFromSPIFFS env cache path i).2.2 = [] ∨
    (loadImageFromSPIFFS env cache path i).2.2
      = [Draw.image i (IMAGE_CACHE_PATH ++ path)] := by
  simp only [loadImageFromSPIFFS]
  by_cases hm : Cache.lookup cache (IMAGE_CACHE_PATH ++ path) = none
  · rw [if_pos hm]
    by_cases hb : env.bridgeHost = ""
    · rw [if_pos hb]
      exact Or.inl rfl
    · rw [if_neg hb]
      by_cases hdl : (downloadImageHTTP env (env.http path) cache path).1 = false
      · rw [if_pos hdl]
        exact Or.inl rfl
      · rw [if_neg hdl]
        exact loadImageCore_draws env _ _ i
  · rw [if_neg hm]
    exact loadImageCore_draws env _ _ i

/-- Every drawing emitted by `renderDisplayForState` for display `i` lands
on surface `i`. -/
theorem renderDisplay_surface (env : Env) (cache : Cache) (opts : Nat → KeyOption)
    (i : Nat) (st : ClaudeState) :
    ∀ d ∈ (renderDisplayForState env cache opts i st).2, d.surface = i := by
  intro d hd
  cases st
  case CONNECTING =>
      rcases i with _ | _ | _ | _ | j <;> simp [renderDisplayForState] at hd <;>
        subst hd <;> rfl
  case RATE_LIMITED =>
      rcases i with _ | _ | _ | _ | j <;> simp [renderDisplayForState] at hd <;>
        subst hd <;> rfl
  case ERROR =>
      rcases i with _ | _ | _ | _ | j <;> simp [renderDisplayForState] at hd <;>
        subst hd <;> rfl
  all_goals {
    simp only [renderDisplayForState] at hd
    by_cases himg : (opts i).hasImage = true
    · rw [if_pos himg] at hd
      by_cases hr : (loadImageFromSPIFFS env cache (opts i).imagePath i).1 = true
      · rw [if_pos hr] at hd
        rcases loadImage_draws env cache (opts i).imagePath i with h | h <;> rw [h] at hd
        · simp at hd
        · simp at hd
          subst hd
          rfl
      · rw [if_neg hr] at hd
        simp at hd
        subst hd
        rfl
    · rw [if_neg himg] at hd
      simp at hd
      subst hd
      rfl }

/-- A render-loop step only adds drawings for its own, non-overridden
surface. -/
theorem renderStep_draws (env : Env) (dev : Device) (acc : Cache × List Draw)
    (i : Nat) :
    ∀ d ∈ (renderStep env dev acc i).2,
      d ∈ acc.2 ∨ (d.surface = i ∧ dev.override i = false) := by
  intro d hd
  unfold renderStep at hd
  by_cases hov : dev.override i = true
  · rw [if_pos hov] at hd
    exact Or.inl hd
  · rw [if_neg hov] at hd
    simp only [List.mem_append] at hd
    rcases hd with h | h
    · exact Or.inl h
    · exact Or.inr ⟨renderDisplay_surface env acc.1 dev.optAt i dev.current d h,
        Bool.eq_false_iff.mpr hov⟩

/-- Every drawing of a `renderStateUI` pass targets one of the four surfaces
and never an overridden one. -/
theorem renderStateUI_draws (env : Env) (w : World) :
    ∀ d ∈ (renderStateUI env w).2,
      d.surface < 4 ∧ w.dev.override d.surface = false := by
  intro d hd
  unfold renderStateUI at hd
  rcases renderStep_draws env w.dev _ 3 d hd with h | ⟨hs, ho⟩
  · rcases renderStep_draws env w.dev _ 2 d h with h | ⟨hs, ho⟩
    · rcases renderStep_draws env w.dev _ 1 d h with h | ⟨hs, ho⟩
      · rcases renderStep_draws env w.dev _ 0 d h with h | ⟨hs, ho⟩
        · simp at h
        · exact ⟨by omega, by rw [hs]; exact ho⟩
      · exact ⟨by omega, by rw [hs]; exact ho⟩
    · exact ⟨by omega, by rw [hs]; exact ho⟩
  · exact ⟨by omega, by rw [hs]; exact ho⟩

/-- Two devices with the same override flags agree on `override`. -/
theorem override_congr (a b : Device) (h0 : a.ov0 = b.ov0) (h1 : a.ov1 = b.ov1)
    (h2 : a.ov2 = b.ov2) (h3 : a.ov3 = b.ov3) (i : Nat) :
    a.override i = b.override i := by
  unfold Device.override
  rw [h0, h1, h2, h3]

/-- Updating an option slot leaves every override flag alone. -/
theorem setOpt_override (dev : Device) (j : Nat) (o : KeyOption) (i : Nat) :
    (setOpt dev j o).override i = dev.override i := by
  unfold setOpt
  split_ifs <;> exact override_congr _ _ rfl rfl rfl rfl i

/-- `updateSlots` leaves every override flag alone. -/
theorem updateSlots_override (dev : Device) (opts : List OptionEntry) (i : Nat) :
    (updateSlots dev opts).override i = dev.override i := by
  unfold updateSlots
  cases opts.get? 0 <;> cases opts.get? 1 <;> cases opts.get? 2 <;>
    cases opts.get? 3 <;> simp only [setOpt_override]

/-- Setting one override flag leaves the others alone. -/
theorem setOverride_override_other (dev : Device) (j : Nat) (b : Bool) (i : Nat)
    (h : ¬ i = j) :
    (setOverride dev j b).override i = dev.override i := by
  unfold setOverride Device.override
  split_ifs <;> simp_all

/-- A single safe event (no `status`, no key, no `display_update` aimed at
surface `i`) keeps surface `i` overridden, never restarts, and never draws
on surface `i`. -/
theorem step_safe (env : Env) (w : World) (i : Nat) (e : Ev)
    (hov : w.dev.override i = true)
    (hsafe : safeForOverride i e = true) :
    (stepEv env w e).w.dev.override i = true ∧
    (stepEv env w e).restart = false ∧
    ∀ d ∈ (stepEv env w e).draws, ¬ d.surface = i := by
  cases e with
  | msg m =>
      cases m with
      | update_options sid opts =>
          refine ⟨?_, rfl, ?_⟩
          · have h1 : (stepEv env w (Ev.msg (Msg.update_options sid opts))).w.dev.override i
                = (updateSlots { w.dev with sessionId := sid } opts).override i :=
              override_congr _ _ rfl rfl rfl rfl i
            rw [h1, updateSlots_override]
            exact Eq.trans (override_congr _ w.dev rfl rfl rfl rfl i) hov
          · intro d hd
            simp [stepEv, processClaudeMessage] at hd
      | status s cd =>
          simp [safeForOverride] at hsafe
      | display_update dn title content =>
          have hne : ¬ (dn.getD (-1)) = (i : Int) := of_decide_eq_true hsafe
          by_cases hr : 0 ≤ dn.getD (-1) ∧ dn.getD (-1) < 4
          · have hni : ¬ i = (dn.getD (-1)).toNat := by omega
            refine ⟨?_, rfl, ?_⟩
            · simp only [stepEv, processClaudeMessage, if_pos hr]
              rw [setOverride_override_other w.dev _ true i hni]
              exact hov
            · intro d hd
              simp only [stepEv, processClaudeMessage, if_pos hr] at hd
              simp at hd
              subst hd
              simpa [Draw.surface] using fun heq => hni heq.symm
          · refine ⟨?_, rfl, ?_⟩
            · simp only [stepEv, processClaudeMessage, if_neg hr]
              exact hov
            · intro d hd
              simp only [stepEv, processClaudeMessage, if_neg hr] at hd
              simp at hd
      | image name data =>
          refine ⟨?_, ?_, ?_⟩
          · simp only [stepEv, processClaudeMessage]
            split <;> exact hov
          · rfl
          · intro d hd
            simp only [stepEv, processClaudeMessage] at hd
            revert hd
            split <;> simp
      | unknown t =>
          exact ⟨hov, rfl, by intro d hd; simp [stepEv, processClaudeMessage] at hd⟩
  | flushOptions =>
      by_cases hf : w.dev.optionsUpdated ∧ w.dev.wsConnected
      · refine ⟨?_, ?_, ?_⟩
        · simp only [stepEv, if_pos hf]
          exact Eq.trans (override_congr _ w.dev rfl rfl rfl rfl i) hov
        · simp only [stepEv, if_pos hf]
        · intro d hd hsurf
          simp only [stepEv, if_pos hf] at hd
          have hfalse := (renderStateUI_draws env w d hd).2
          rw [hsurf, hov] at hfalse
          exact absurd hfalse (by decide)
      · refine ⟨?_, ?_, ?_⟩
        · simp only [stepEv, if_neg hf]
          exact hov
        · simp only [stepEv, if_neg hf]
        · intro d hd
          simp only [stepEv, if_neg hf] at hd
          simp at hd
  | secondTick =>
      by_cases hc : w.dev.current = ClaudeState.RATE_LIMITED
      · refine ⟨?_, ?_, ?_⟩
        · simp only [stepEv, if_pos hc]
          split
          · exact Eq.trans (override_congr _ w.dev rfl rfl rfl rfl i) hov
          · exact hov
        · simp only [stepEv, if_pos hc]
        · intro d hd hsurf
          simp only [stepEv, if_pos hc] at hd
          by_cases h2 : w.dev.override 2 = true
          · rw [if_pos h2] at hd
            simp at hd
          · rw [if_neg h2] at hd
            simp at hd
            subst hd
            have h2i : (2 : Nat) = i := hsurf
            rw [← h2i] at hov
            exact h2 hov
      · refine ⟨?_, ?_, ?_⟩
        · simp only [stepEv, if_neg hc]
          exact hov
        · simp only [stepEv, if_neg hc]
        · intro d hd
          simp only [stepEv, if_neg hc] at hd
          simp at hd
  | errorTick =>
      by_cases hc : w.dev.current = ClaudeState.ERROR
      · refine ⟨?_, ?_, ?_⟩
        · simp only [stepEv, if_pos hc]
          exact hov
        · simp only [stepEv, if_pos hc]
        · intro d hd hsurf
          simp only [stepEv, if_pos hc] at hd
          by_cases h1 : w.dev.override 1 = true
          · rw [if_pos h1] at hd
            simp at hd
          · rw [if_neg h1] at hd
            simp at hd
            subst hd
            have h1i : (1 : Nat) = i := hsurf
            rw [← h1i] at hov
            exact h1 hov
      · refine ⟨?_, ?_, ?_⟩
        · simp only [stepEv, if_neg hc]
          exact hov
        · simp only [stepEv, if_neg hc]
        · intro d hd
          simp only [stepEv, if_neg hc] at hd
          simp at hd
  | key k =>
      simp [safeForOverride] at hsafe

/-- Claim C7: an overridden surface is never touched by state-driven
rendering — not by an option-update re-render, a periodic countdown-timer or
error-icon redraw, another surface's `display_update`, an `image` push, or
an options flush — and stays overridden, for as long as no state transition
happens (no `status` message and no key press, the only transition sources,
occur in the event window). -/
theorem C7_override_untouched (env : Env) (i : Nat) (evs : List Ev) :
    ∀ w : World, w.dev.override i = true →
    (∀ e ∈ evs, safeForOverride i e = true) →
    (runEvents env w evs).w.dev.override i = true ∧
    ∀ d ∈ (runEvents env w evs).draws, ¬ d.surface = i := by
  induction evs with
  | nil =>
      intro w hov _
      exact ⟨hov, by intro d hd; simp [runEvents] at hd⟩
  | cons e es ih =>
      intro w hov hsafe
      have hse := step_safe env w i e hov (hsafe e (List.mem_cons_self e es))
      have ihr := ih (stepEv env w e).w hse.1
        (fun e' he' => hsafe e' (List.mem_cons_of_mem e he'))
      constructor
      · simp only [runEvents, hse.2.1, Bool.false_eq_true, if_false]
        exact ihr.1
      · intro d hd
        simp only [runEvents, hse.2.1, Bool.false_eq_true, if_false] at hd
        rcases List.mem_append.mp hd with h | h
        · exact hse.2.2 d h
        · exact ihr.2 d h

theorem C7_override_untouched_witness :
    wOverride1.dev.override 1 = true ∧
    (∀ e ∈ [Ev.msg (Msg.update_options "s2" optsOther), Ev.flushOptions],
      safeForOverride 1 e = true) ∧
    ((runEvents env0 wOverride1
        [Ev.msg (Msg.update_options "s2" optsOther), Ev.flushOptions]).w.dev.override 1
      = true ∧
     ∀ d ∈ (runEvents env0 wOverride1
        [Ev.msg (Msg.update_options "s2" optsOther), Ev.flushOptions]).draws,
        ¬ d.surface = 1) :=
  ⟨rfl, by decide,
   C7_override_untouched env0 1
     [Ev.msg (Msg.update_options "s2" optsOther), Ev.flushOptions]
     wOverride1 rfl (by decide)⟩

end TKeyboard
